import Mathlib

/-!
Shallow embedding of the content-identity reconciliation core of
SillyTavern-GreetingTools (src/data-storage.js and the popup state logic
of greeting-tools.js), together with theorems settling the spec claims.

JavaScript objects with string keys iterate in insertion order, so the
`greetings` map is embedded as an association list of
(identifier, metadata) pairs in insertion order; the `indexMap`
(position -> identifier) is likewise an association list.  The host's
`getStringHash` fingerprinter is external to the repository, so all
operations are parametric in a hash function `String → Nat`.
-/

namespace GreetingTools

/-- Metadata record stored under an identifier.  Fields mirror the JS
records: data-storage.js declares `title`, `summary` and `contentHash`,
and the popup's `saveAllMetadata` additionally persists `description`
into the same store.  `none` models an absent JS field. -/
structure GreetingMetadata where
  title : Option String
  summary : Option String
  description : Option String
  contentHash : Option Nat
  deriving Repr, DecidableEq

/-- The persisted store: `greetings` keyed by identifier (insertion
order kept) and `indexMap` from position to identifier. -/
structure GreetingToolsData where
  greetings : List (String × GreetingMetadata)
  indexMap : List (Nat × String)
  deriving Repr, DecidableEq

/-- Association-list lookup: first pair with the given key, mirroring a
JS object property read. -/
def lookupKey {α β : Type} [DecidableEq α] : List (α × β) → α → Option β
  | [], _ => none
  | p :: rest, k => if p.1 = k then some p.2 else lookupKey rest k

/-- Whether a key is present, mirroring `key in obj`. -/
def containsKey {α β : Type} [DecidableEq α] : List (α × β) → α → Bool
  | [], _ => false
  | p :: rest, k => if p.1 = k then true else containsKey rest k

/-- Property assignment `obj[k] = v`: replaces the value in place when
the key exists (keeping its iteration position), otherwise appends the
new pair at the end, exactly as JS objects behave. -/
def setKey {α β : Type} [DecidableEq α] (l : List (α × β)) (k : α) (v : β) : List (α × β) :=
  if containsKey l k then l.map (fun p => if p.1 = k then (k, v) else p)
  else l ++ [(k, v)]

/-- JS string-falsiness of an optional string field: absent or `""`. -/
def strFalsy (o : Option String) : Bool :=
  match o with
  | none => true
  | some s => s = ""

/-- Translation of `isMetadataEmpty` (data-storage.js lines 177-180):
`!metadata.title && !metadata.summary`.  Note it inspects `summary`,
not `description`. -/
def isMetadataEmpty (m : GreetingMetadata) : Bool :=
  strFalsy m.title && strFalsy m.summary

/-- Identifiers of the records that `cleanupEmptyEntries` deletes. -/
def emptyIds (greetings : List (String × GreetingMetadata)) : List String :=
  (greetings.filter (fun p => isMetadataEmpty p.2)).map Prod.fst

/-- Translation of `cleanupEmptyEntries` (data-storage.js lines
187-200): deletes every empty record and every indexMap entry whose
identifier is one of the deleted records. -/
def cleanupEmptyEntries (data : GreetingToolsData) : GreetingToolsData :=
  { greetings := data.greetings.filter (fun p => !isMetadataEmpty p.2),
    indexMap := data.indexMap.filter (fun q => !(emptyIds data.greetings).contains q.2) }

/-- The linear scan `for (const [id, meta] of Object.entries(data.greetings))`
returning the first record whose stored hash equals `h`. -/
def findByHash (h : Nat) : List (String × GreetingMetadata) → Option String
  | [] => none
  | p :: rest => if p.2.contentHash = some h then some p.1 else findByHash h rest

/-- Translation of `getOrCreateGreetingId` (data-storage.js lines
107-130).  `contents` is the character's alternate-greetings list
(`getGreetingContent` is `contents[index] ?? ''`); `freshId` stands for
the value `generateGreetingId()` would produce.  Returns
(greetingId, isNew). -/
def getOrCreateGreetingId (hash : String → Nat) (freshId : String)
    (contents : List String) (index : Nat) (data : GreetingToolsData) : String × Bool :=
  let content := contents.getD index ""
  let contentHash := hash content
  let scanResult :=
    match findByHash contentHash data.greetings with
    | some matchedId => (matchedId, false)
    | none => (freshId, true)
  match lookupKey data.indexMap index with
  | none => (freshId, true)
  | some existingId =>
    if existingId = "" then (freshId, true)
    else
      match lookupKey data.greetings existingId with
      | some metadata =>
        if metadata.contentHash = some contentHash then (existingId, false) else scanResult
      | none => scanResult

/-- Partial metadata update (`Partial<GreetingMetadata>` in JS): a
`some` field is present in the update object and overrides, a `none`
field is absent. -/
structure MetadataUpdates where
  title : Option String
  summary : Option String
  description : Option String
  deriving Repr, DecidableEq

/-- Spread-merge of one optional field: `{...old, ...updates}`. -/
def overrideField (upd old : Option String) : Option String :=
  match upd with
  | some v => some v
  | none => old

/-- Translation of `updateGreetingMetadata` (data-storage.js lines
211-237), on the path where an owner is selected: resolves the
identifier, writes the indexMap entry, spread-merges the updates with
a refreshed content hash, then runs `cleanupEmptyEntries`. -/
def updateGreetingMetadata (hash : String → Nat) (freshId : String)
    (contents : List String) (index : Nat) (updates : MetadataUpdates)
    (data : GreetingToolsData) : GreetingToolsData :=
  let content := contents.getD index ""
  let greetingId := (getOrCreateGreetingId hash freshId contents index data).1
  let contentHash := hash content
  let indexMap1 := setKey data.indexMap index greetingId
  let old := (lookupKey data.greetings greetingId).getD ⟨none, none, none, none⟩
  let merged : GreetingMetadata :=
    { title := overrideField updates.title old.title,
      summary := overrideField updates.summary old.summary,
      description := overrideField updates.description old.description,
      contentHash := some contentHash }
  cleanupEmptyEntries { greetings := setKey data.greetings greetingId merged,
                        indexMap := indexMap1 }

/-- Translation of `updateContentHash` (data-storage.js lines 259-276):
no-op when the current content is empty, when the position is unmapped
(or mapped to a falsy identifier), or when the mapped record is absent;
otherwise overwrites just that record's `contentHash` field. -/
def updateContentHash (hash : String → Nat) (contents : List String)
    (index : Nat) (data : GreetingToolsData) : GreetingToolsData :=
  let content := contents.getD index ""
  if content = "" then data
  else
    let contentHash := hash content
    match lookupKey data.indexMap index with
    | none => data
    | some greetingId =>
      if greetingId = "" then data
      else
        match lookupKey data.greetings greetingId with
        | none => data
        | some m =>
          { data with
            greetings := setKey data.greetings greetingId { m with contentHash := some contentHash } }

/-- Inner matching loop of `syncIndexMap`: first record whose stored
hash equals `h` and whose identifier has not been claimed yet. -/
def findMatch (h : Nat) (used : List String) : List (String × GreetingMetadata) → Option String
  | [] => none
  | p :: rest =>
    if p.2.contentHash = some h ∧ ¬ used.contains p.1 then some p.1
    else findMatch h used rest

/-- Position loop of `syncIndexMap`: walks the contents from position
`i`, claiming at most one record per position and skipping positions
with no match. -/
def syncLoop (hash : String → Nat) (records : List (String × GreetingMetadata)) :
    Nat → List String → List String → List (Nat × String)
  | _, _, [] => []
  | i, used, content :: rest =>
    match findMatch (hash content) used records with
    | some gId => (i, gId) :: syncLoop hash records (i + 1) (gId :: used) rest
    | none => syncLoop hash records (i + 1) used rest

/-- Translation of `syncIndexMap` (data-storage.js lines 285-318):
rebuilds the whole indexMap from scratch by content-hash matching
against `greetings`, leaving `greetings` untouched. -/
def syncIndexMap (hash : String → Nat) (contents : List String)
    (data : GreetingToolsData) : GreetingToolsData :=
  { data with indexMap := syncLoop hash data.greetings 0 [] contents }

/-- In-memory editor state of one greeting in the popup
(greeting-tools.js `GreetingState` typedef). -/
structure GreetingState where
  id : String
  content : String
  title : String
  description : String
  contentHash : Nat
  deriving Repr, DecidableEq, Inhabited

/-- In-memory popup session state: the module-level variables
`mainGreetingState` and `greetingStates`, plus the character content
fields the popup writes back (`first_mes` and `alternate_greetings`). -/
structure PopupState where
  mainState : Option GreetingState
  altStates : List GreetingState
  firstMes : String
  altGreetings : List String
  deriving Repr, DecidableEq

/-- Translation of `swapMainWithFirstAlt` (greeting-tools.js): no-op
when there is no main state or no alternate greeting; otherwise the two
state objects trade places wholesale and the character content fields
are re-synced from the new states. -/
def swapMainWithFirstAlt (st : PopupState) : PopupState :=
  match st.mainState, st.altStates with
  | some oldMain, oldFirstAlt :: rest =>
    let alts := oldMain :: rest
    { mainState := some oldFirstAlt,
      altStates := alts,
      firstMes := oldFirstAlt.content,
      altGreetings := alts.map (fun s => s.content) }
  | _, _ => st

/-- Index of the state with the given identifier
(`greetingStates.findIndex(s => s.id === greetingId)`). -/
def findIdxById (gid : String) : List GreetingState → Option Nat
  | [] => none
  | s :: rest =>
    if s.id = gid then some 0
    else (findIdxById gid rest).map (· + 1)

/-- Destructuring swap of two list positions, defined only for
in-range indices (the caller guards the range). -/
def swapList {α : Type} [Inhabited α] (l : List α) (i j : Nat) : List α :=
  (l.set i (l.getD j default)).set j (l.getD i default)

/-- Translation of `handleMove` (greeting-tools.js lines 759-782):
unknown identifier is a no-op; moving the first alternate up while a
main state exists performs the head swap; an out-of-range target is a
no-op; otherwise the two adjacent states swap and the content list is
re-synced. -/
def handleMove (gid : String) (direction : Int) (st : PopupState) : PopupState :=
  match findIdxById gid st.altStates with
  | none => st
  | some index =>
    if index = 0 ∧ direction = -1 ∧ st.mainState.isSome then swapMainWithFirstAlt st
    else
      let newIndex : Int := (index : Int) + direction
      if newIndex < 0 ∨ (st.altStates.length : Int) ≤ newIndex then st
      else
        let alts := swapList st.altStates index newIndex.toNat
        { st with altStates := alts, altGreetings := alts.map (fun s => s.content) }

end GreetingTools

namespace GreetingTools

/-! Helper lemmas about list filtering and association-list operations. -/

theorem filter_idem {α : Type} (p : α → Bool) (l : List α) :
    (l.filter p).filter p = l.filter p := by
  induction l with
  | nil => rfl
  | cons a t ih => cases h : p a <;> simp [List.filter_cons, h, ih]

theorem filter_not_then_filter {α : Type} (p : α → Bool) (l : List α) :
    (l.filter fun a => !p a).filter p = [] := by
  induction l with
  | nil => rfl
  | cons a t ih => cases h : p a <;> simp [List.filter_cons, h, ih]

/-- Claim C6: garbage collection is idempotent — applying
`cleanupEmptyEntries` twice produces exactly the same store (same
`greetings` and same `indexMap`) as applying it once. -/
theorem cleanupEmptyEntries_idempotent (d : GreetingToolsData) :
    cleanupEmptyEntries (cleanupEmptyEntries d) = cleanupEmptyEntries d := by
  unfold cleanupEmptyEntries
  simp only [GreetingToolsData.mk.injEq]
  constructor
  · exact filter_idem _ _
  · have h : emptyIds (d.greetings.filter fun p => !isMetadataEmpty p.2) = [] := by
      unfold emptyIds
      rw [filter_not_then_filter (fun p => isMetadataEmpty p.2) d.greetings]
      rfl
    simp [h]

/-- Claim C10: `syncIndexMap` replaces only the position-to-identifier
map; the `greetings` record map (every identifier, title,
summary/description and stored fingerprint) is left unchanged, so
records whose content no longer appears in the list are retained. -/
theorem syncIndexMap_preserves_greetings (hash : String → Nat)
    (contents : List String) (d : GreetingToolsData) :
    (syncIndexMap hash contents d).greetings = d.greetings ∧
    (∀ gid : String, lookupKey (syncIndexMap hash contents d).greetings gid =
      lookupKey d.greetings gid) := by
  constructor
  · rfl
  · intro gid; rfl

/-- Store exhibiting the C3 divergence: one record whose only non-empty
field is its `description`, mapped at position 0. -/
def dataC3 : GreetingToolsData :=
  { greetings := [("A", ⟨some "", none, some "keep me", some 5⟩)],
    indexMap := [(0, "A")] }

/-- Claim C3 (code bug evaluation): `cleanupEmptyEntries` deletes a
record whose `description` is its only non-empty field, together with
its indexMap entry, because `isMetadataEmpty` tests the unused
`summary` field instead of the `description` field that the popup's
save path persists. -/
theorem cleanup_drops_description_only_record :
    lookupKey dataC3.greetings "A" = some ⟨some "", none, some "keep me", some 5⟩ ∧
    (⟨some "", none, some "keep me", some 5⟩ : GreetingMetadata).description = some "keep me" ∧
    cleanupEmptyEntries dataC3 = { greetings := [], indexMap := [] } := by
  refine ⟨rfl, rfl, ?_⟩
  decide

/-- A partially applied scan step: `findByHash` finds the first record
in insertion order whose stored hash is `h`, skipping a non-matching
prefix. -/
theorem findByHash_first (h : Nat) (pre post : List (String × GreetingMetadata))
    (mid : String) (m0 : GreetingMetadata)
    (hpre : ∀ q ∈ pre, q.2.contentHash ≠ some h)
    (hm : m0.contentHash = some h) :
    findByHash h (pre ++ (mid, m0) :: post) = some mid := by
  induction pre with
  | nil => simp [findByHash, hm]
  | cons a t ih =>
    have ha : a.2.contentHash ≠ some h := hpre a (by simp)
    simp only [List.cons_append, findByHash, if_neg ha]
    exact ih fun q hq => hpre q (by simp [hq])

/-- Store exhibiting the C1 divergence: a record matching the new text
exists, but position 2 has no indexMap entry. -/
def dataC1 : GreetingToolsData :=
  { greetings := [("g1", ⟨some "Casual", none, none, some 2⟩)],
    indexMap := [] }

/-- Claim C1 counterexample: with no position-to-identifier entry for
position 2 and a record whose stored fingerprint equals
fingerprint("Hi") (here the fingerprinter is `String.length`, so 2),
`getOrCreateGreetingId` returns a freshly generated identifier with
isNew = true instead of the matching record's identifier "g1" — the
fallback scan runs only when the position already has a (stale)
mapping. -/
theorem getOrCreate_no_mapping_ignores_matches :
    lookupKey dataC1.indexMap 2 = none ∧
    findByHash (String.length (["x", "y", "Hi"].getD 2 "")) dataC1.greetings = some "g1" ∧
    getOrCreateGreetingId String.length "freshlyGenerated" ["x", "y", "Hi"] 2 dataC1 =
      ("freshlyGenerated", true) ∧
    getOrCreateGreetingId String.length "freshlyGenerated" ["x", "y", "Hi"] 2 dataC1 ≠
      ("g1", false) := by
  refine ⟨rfl, by decide, by decide, by decide⟩

/-- Claim C1 (amended): when position `index` HAS a mapping to a
non-empty identifier whose record is absent or has a stored
fingerprint different from fingerprint(currentText), and some record's
stored fingerprint equals fingerprint(currentText),
`getOrCreateGreetingId` returns the identifier of the first such
record in map-insertion order with isNew = false, not a fresh
identifier. -/
theorem getOrCreate_stale_mapping_finds_first_match (hash : String → Nat)
    (freshId : String) (contents : List String) (index : Nat)
    (d : GreetingToolsData) (gid mid : String)
    (pre post : List (String × GreetingMetadata)) (m0 : GreetingMetadata)
    (hmap : lookupKey d.indexMap index = some gid)
    (hgid : gid ≠ "")
    (hstale : ∀ mg, lookupKey d.greetings gid = some mg →
      mg.contentHash ≠ some (hash (contents.getD index "")))
    (hdecomp : d.greetings = pre ++ (mid, m0) :: post)
    (hpre : ∀ q ∈ pre, q.2.contentHash ≠ some (hash (contents.getD index "")))
    (hm : m0.contentHash = some (hash (contents.getD index ""))) :
    getOrCreateGreetingId hash freshId contents index d = (mid, false) := by
  have hfind : findByHash (hash (contents.getD index "")) d.greetings = some mid := by
    rw [hdecomp]; exact findByHash_first _ _ _ _ _ hpre hm
  unfold getOrCreateGreetingId
  simp only [hmap, hfind]
  cases hg : lookupKey d.greetings gid with
  | none => simp [hgid]
  | some mg =>
    have hne : mg.contentHash ≠ some (hash (contents.getD index "")) := hstale mg hg
    simp only [List.getD_eq_getElem?_getD] at hne
    simp [hgid, hne]

/-- Store for the C1 witness: position 1 is mapped to the stale record
"B"; record "A" matches the new text "Hi". -/
def dataC1W : GreetingToolsData :=
  { greetings := [("B", ⟨some "u", none, none, some 9⟩),
                  ("A", ⟨some "Casual", none, none, some 2⟩)],
    indexMap := [(1, "B")] }

/-- Witness for the amended claim C1 at a concrete store. -/
theorem getOrCreate_stale_mapping_finds_first_match_witness :
    getOrCreateGreetingId String.length "fresh" ["zz", "Hi"] 1 dataC1W = ("A", false) :=
  getOrCreate_stale_mapping_finds_first_match String.length "fresh" ["zz", "Hi"] 1 dataC1W
    "B" "A" [("B", ⟨some "u", none, none, some 9⟩)] []
    ⟨some "Casual", none, none, some 2⟩
    rfl (by decide)
    (by intro mg hmg; simp only [dataC1W, lookupKey] at hmg; simp at hmg; subst hmg; decide)
    rfl (by decide) (by decide)

/-- Claim C5: the fast path — when the position is mapped to an
existing record whose stored fingerprint equals
fingerprint(currentText), `getOrCreateGreetingId` returns that same
identifier with isNew = false.  The store is otherwise arbitrary, so
the result does not depend on (and never scans) the other records. -/
theorem getOrCreate_fast_path (hash : String → Nat) (freshId : String)
    (contents : List String) (index : Nat) (d : GreetingToolsData)
    (gid : String) (m : GreetingMetadata)
    (hmap : lookupKey d.indexMap index = some gid)
    (hgid : gid ≠ "")
    (hrec : lookupKey d.greetings gid = some m)
    (hhash : m.contentHash = some (hash (contents.getD index ""))) :
    getOrCreateGreetingId hash freshId contents index d = (gid, false) := by
  unfold getOrCreateGreetingId
  simp [hmap, hgid, hrec, hhash]

/-- Store for the C5 witness: position 0 is mapped to "A" whose stored
fingerprint matches the current text. -/
def dataC5W : GreetingToolsData :=
  { greetings := [("A", ⟨some "t", none, none, some 3⟩)],
    indexMap := [(0, "A")] }

/-- Witness for claim C5 at a concrete store. -/
theorem getOrCreate_fast_path_witness :
    getOrCreateGreetingId String.length "fresh" ["abc"] 0 dataC5W = ("A", false) :=
  getOrCreate_fast_path String.length "fresh" ["abc"] 0 dataC5W "A"
    ⟨some "t", none, none, some 3⟩ rfl (by decide) rfl (by decide)

theorem findMatch_eq_none (h : Nat) (used : List String)
    (records : List (String × GreetingMetadata))
    (hno : ∀ q ∈ records, q.2.contentHash ≠ some h) :
    findMatch h used records = none := by
  induction records with
  | nil => rfl
  | cons a t ih =>
    have ha : a.2.contentHash ≠ some h := hno a (by simp)
    have hcond : ¬ (a.2.contentHash = some h ∧ ¬ used.contains a.1 = true) := by
      intro hc
      exact ha hc.1
    simp only [findMatch, if_neg hcond]
    exact ih fun q hq => hno q (by simp [hq])

theorem syncLoop_eq_nil (hash : String → Nat)
    (records : List (String × GreetingMetadata)) (contents : List String)
    (hno : ∀ c ∈ contents, ∀ q ∈ records, q.2.contentHash ≠ some (hash c)) :
    ∀ (i : Nat) (used : List String), syncLoop hash records i used contents = [] := by
  induction contents with
  | nil => intro i used; rfl
  | cons c rest ih =>
    intro i used
    have hmatch : findMatch (hash c) used records = none :=
      findMatch_eq_none _ _ _ (hno c (by simp))
    simp only [syncLoop, hmatch]
    exact ih (fun c' hc' => hno c' (by simp [hc'])) _ _

/-- Claim C2 (amended): for a list of entries whose fingerprints are
all distinct from the stored fingerprint of every record,
`syncIndexMap` leaves every position unmapped — the rebuilt indexMap
is empty, no identifier (fresh or stored) is assigned to any position,
and no stale record is matched; the records themselves are untouched. -/
theorem syncIndexMap_novel_content_unmapped (hash : String → Nat)
    (contents : List String) (d : GreetingToolsData)
    (hno : ∀ c ∈ contents, ∀ q ∈ d.greetings, q.2.contentHash ≠ some (hash c)) :
    (syncIndexMap hash contents d).indexMap = [] ∧
    (syncIndexMap hash contents d).greetings = d.greetings := by
  constructor
  · exact syncLoop_eq_nil hash d.greetings contents hno 0 []
  · rfl

/-- Store for the C2 counterexample and witness: one stored record
whose fingerprint (9) differs from the fingerprint of every list entry
(`String.length "ab" = 2`). -/
def dataC2 : GreetingToolsData :=
  { greetings := [("g1", ⟨some "t", none, none, some 9⟩)],
    indexMap := [(0, "g1")] }

/-- Claim C2 counterexample: the list has N = 1 entry with a novel
fingerprint, yet `syncIndexMap` assigns no identifier at all to
position 0 (the rebuilt map is empty) — it does not generate N
distinct fresh identifiers. -/
theorem syncIndexMap_assigns_no_fresh_ids :
    (["ab"] : List String).length = 1 ∧
    (∀ q ∈ dataC2.greetings, q.2.contentHash ≠ some (String.length "ab")) ∧
    (syncIndexMap String.length ["ab"] dataC2).indexMap = [] ∧
    lookupKey (syncIndexMap String.length ["ab"] dataC2).indexMap 0 = none := by
  refine ⟨rfl, by decide, by decide, by decide⟩

/-- Witness for the amended claim C2 at a concrete store. -/
theorem syncIndexMap_novel_content_unmapped_witness :
    (syncIndexMap String.length ["ab"] dataC2).indexMap = [] ∧
    (syncIndexMap String.length ["ab"] dataC2).greetings = dataC2.greetings :=
  syncIndexMap_novel_content_unmapped String.length ["ab"] dataC2 (by decide)

/-- Uniqueness invariant of the position map: no two positions map to
the same identifier. -/
def valsNodup (m : List (Nat × String)) : Prop :=
  (m.map Prod.snd).Nodup

instance (m : List (Nat × String)) : Decidable (valsNodup m) :=
  inferInstanceAs (Decidable (m.map Prod.snd).Nodup)

theorem findMatch_not_used (h : Nat) (used : List String) :
    ∀ (records : List (String × GreetingMetadata)) (g : String),
      findMatch h used records = some g → g ∉ used := by
  intro records
  induction records with
  | nil => intro g hg; cases hg
  | cons p rest ih =>
    intro g hg
    by_cases hc : p.2.contentHash = some h ∧ ¬ used.contains p.1 = true
    · rw [findMatch, if_pos hc] at hg
      cases hg
      intro hmem
      exact hc.2 (List.elem_iff.mpr hmem)
    · rw [findMatch, if_neg hc] at hg
      exact ih g hg

theorem syncLoop_vals_not_used (hash : String → Nat)
    (records : List (String × GreetingMetadata)) :
    ∀ (contents : List String) (i : Nat) (used : List String) (g : String),
      g ∈ (syncLoop hash records i used contents).map Prod.snd → g ∉ used := by
  intro contents
  induction contents with
  | nil => intro i used g hg; simp [syncLoop] at hg
  | cons c rest ih =>
    intro i used g hg
    cases hm : findMatch (hash c) used records with
    | none =>
      simp only [syncLoop, hm] at hg
      exact ih _ _ g hg
    | some gId =>
      simp only [syncLoop, hm, List.map_cons, List.mem_cons] at hg
      cases hg with
      | inl he => subst he; exact findMatch_not_used _ _ _ _ hm
      | inr ht =>
        have hnot := ih _ _ g ht
        intro hmem
        exact hnot (by simp [hmem])

theorem syncLoop_vals_nodup (hash : String → Nat)
    (records : List (String × GreetingMetadata)) :
    ∀ (contents : List String) (i : Nat) (used : List String),
      ((syncLoop hash records i used contents).map Prod.snd).Nodup := by
  intro contents
  induction contents with
  | nil => intro i used; simp [syncLoop]
  | cons c rest ih =>
    intro i used
    cases hm : findMatch (hash c) used records with
    | none => simp only [syncLoop, hm]; exact ih _ _
    | some gId =>
      simp only [syncLoop, hm, List.map_cons]
      refine List.nodup_cons.mpr ⟨?_, ih _ _⟩
      intro hmem
      exact syncLoop_vals_not_used hash records rest (i + 1) (gId :: used) gId hmem (by simp)

theorem valsNodup_filter (p : Nat × String → Bool) (m : List (Nat × String))
    (h : valsNodup m) : valsNodup (m.filter p) :=
  List.Nodup.sublist (List.Sublist.map Prod.snd (List.filter_sublist m)) h

theorem updateContentHash_indexMap_eq (hash : String → Nat) (contents : List String)
    (index : Nat) (d : GreetingToolsData) :
    (updateContentHash hash contents index d).indexMap = d.indexMap := by
  by_cases hc : contents.getD index "" = ""
  all_goals simp only [List.getD_eq_getElem?_getD] at hc
  · simp [updateContentHash, hc]
  · cases hm : lookupKey d.indexMap index with
    | none => simp [updateContentHash, hc, hm]
    | some gid =>
      by_cases hg : gid = ""
      · simp [updateContentHash, hc, hm, hg]
      · cases hr : lookupKey d.greetings gid with
        | none => simp [updateContentHash, hc, hm, hg, hr]
        | some m => simp [updateContentHash, hc, hm, hg, hr]

/-- Claim C4 (amended): the uniqueness invariant — no two positions
mapping to the same identifier — is preserved by `syncIndexMap`
(unconditionally), by `cleanupEmptyEntries`, and by
`updateContentHash`; `updateGreetingMetadata` is excluded because it
can merge two positions onto one identifier (see the counterexample). -/
theorem uniqueness_preserved_by_sync_cleanup_refresh :
    (∀ (hash : String → Nat) (contents : List String) (d : GreetingToolsData),
      valsNodup (syncIndexMap hash contents d).indexMap)
    ∧ (∀ d : GreetingToolsData,
      valsNodup d.indexMap → valsNodup (cleanupEmptyEntries d).indexMap)
    ∧ (∀ (hash : String → Nat) (contents : List String) (index : Nat) (d : GreetingToolsData),
      valsNodup d.indexMap → valsNodup (updateContentHash hash contents index d).indexMap) := by
  refine ⟨?_, ?_, ?_⟩
  · intro hash contents d
    exact syncLoop_vals_nodup hash d.greetings contents 0 []
  · intro d h
    exact valsNodup_filter _ _ h
  · intro hash contents index d h
    rw [updateContentHash_indexMap_eq]
    exact h

/-- Store for the C4 counterexample: positions 0 and 1 are mapped to
distinct identifiers "B" and "A"; the content at position 0 has been
edited so that its fingerprint (String.length "x" = 1) now matches
record "A", which is already mapped at position 1. -/
def dataC4 : GreetingToolsData :=
  { greetings := [("A", ⟨some "t", none, none, some 1⟩),
                  ("B", ⟨some "u", none, none, some 2⟩)],
    indexMap := [(0, "B"), (1, "A")] }

/-- Claim C4 counterexample: starting from a store whose positions map
to pairwise distinct identifiers, a single `updateGreetingMetadata`
call completes with positions 0 and 1 both mapped to "A" — the
uniqueness invariant is broken outside any swap operation. -/
theorem updateGreetingMetadata_breaks_uniqueness :
    valsNodup dataC4.indexMap ∧
    (updateGreetingMetadata String.length "fresh" ["x", "y"] 0
        ⟨some "new", none, none⟩ dataC4).indexMap = [(0, "A"), (1, "A")] ∧
    ¬ valsNodup (updateGreetingMetadata String.length "fresh" ["x", "y"] 0
        ⟨some "new", none, none⟩ dataC4).indexMap := by
  refine ⟨by decide, by decide, by decide⟩

/-- Witness for the amended claim C4 at concrete stores. -/
theorem uniqueness_preserved_witness :
    valsNodup (syncIndexMap String.length ["ab"] dataC2).indexMap ∧
    valsNodup (cleanupEmptyEntries dataC4).indexMap ∧
    valsNodup (updateContentHash String.length ["abc"] 0 dataC4).indexMap :=
  ⟨uniqueness_preserved_by_sync_cleanup_refresh.1 String.length ["ab"] dataC2,
   uniqueness_preserved_by_sync_cleanup_refresh.2.1 dataC4 (by decide),
   uniqueness_preserved_by_sync_cleanup_refresh.2.2 String.length ["abc"] 0 dataC4 (by decide)⟩

theorem lookupKey_map_set_self {α β : Type} [DecidableEq α]
    (l : List (α × β)) (k : α) (v : β) (h : containsKey l k = true) :
    lookupKey (l.map fun p => if p.1 = k then (k, v) else p) k = some v := by
  induction l with
  | nil => cases h
  | cons p rest ih =>
    by_cases hp : p.1 = k
    · simp [lookupKey, hp]
    · rw [containsKey, if_neg hp] at h
      simp [lookupKey, hp, ih h]

theorem lookupKey_map_set_ne {α β : Type} [DecidableEq α]
    (l : List (α × β)) (k k' : α) (v : β) (hne : k' ≠ k) :
    lookupKey (l.map fun p => if p.1 = k then (k, v) else p) k' = lookupKey l k' := by
  induction l with
  | nil => rfl
  | cons p rest ih =>
    by_cases hp : p.1 = k
    · simp [lookupKey, hp, Ne.symm hne, ih]
    · simp only [List.map_cons, if_neg hp, lookupKey]
      split
      · rfl
      · exact ih

theorem lookupKey_of_containsKey_false {α β : Type} [DecidableEq α]
    (l : List (α × β)) (k : α) (h : containsKey l k = false) :
    lookupKey l k = none := by
  induction l with
  | nil => rfl
  | cons p rest ih =>
    by_cases hp : p.1 = k
    · rw [containsKey, if_pos hp] at h; cases h
    · rw [containsKey, if_neg hp] at h
      simp [lookupKey, hp, ih h]

theorem lookupKey_append_singleton {α β : Type} [DecidableEq α]
    (l : List (α × β)) (k k' : α) (v : β) :
    lookupKey (l ++ [(k, v)]) k' =
      match lookupKey l k' with
      | some w => some w
      | none => if k = k' then some v else none := by
  induction l with
  | nil => simp [lookupKey]
  | cons p rest ih =>
    by_cases hp : p.1 = k'
    · simp [lookupKey, hp]
    · simp [lookupKey, hp, ih]

theorem lookupKey_setKey_self {α β : Type} [DecidableEq α]
    (l : List (α × β)) (k : α) (v : β) :
    lookupKey (setKey l k v) k = some v := by
  unfold setKey
  by_cases h : containsKey l k = true
  · simp only [if_pos h]
    exact lookupKey_map_set_self l k v h
  · simp only [if_neg h]
    rw [lookupKey_append_singleton,
      lookupKey_of_containsKey_false l k (Bool.not_eq_true _ ▸ eq_false_of_ne_true h)]
    simp

theorem lookupKey_setKey_ne {α β : Type} [DecidableEq α]
    (l : List (α × β)) (k k' : α) (v : β) (hne : k' ≠ k) :
    lookupKey (setKey l k v) k' = lookupKey l k' := by
  unfold setKey
  by_cases h : containsKey l k = true
  · simp only [if_pos h]
    exact lookupKey_map_set_ne l k k' v hne
  · simp only [if_neg h]
    rw [lookupKey_append_singleton]
    cases hl : lookupKey l k' with
    | none => simp [Ne.symm hne]
    | some w => rfl

/-- Claim C9 (amended): for a position with NON-EMPTY current text
mapped (via a non-empty identifier) to an existing record,
`updateContentHash` rewrites only that record's stored fingerprint to
the fingerprint of the current text: the record keeps its title,
summary and description, every other record is unchanged, and the
position map is unchanged (in particular no garbage collection runs
and no alternate-match search happens — the result is determined by
the mapped record alone). -/
theorem updateContentHash_frame (hash : String → Nat) (contents : List String)
    (index : Nat) (d : GreetingToolsData) (gid : String) (m : GreetingMetadata)
    (hcontent : contents.getD index "" ≠ "")
    (hmap : lookupKey d.indexMap index = some gid)
    (hgid : gid ≠ "")
    (hrec : lookupKey d.greetings gid = some m) :
    (updateContentHash hash contents index d).indexMap = d.indexMap ∧
    lookupKey (updateContentHash hash contents index d).greetings gid =
      some { m with contentHash := some (hash (contents.getD index "")) } ∧
    (∀ g : String, g ≠ gid →
      lookupKey (updateContentHash hash contents index d).greetings g =
        lookupKey d.greetings g) := by
  have hred : updateContentHash hash contents index d =
      GreetingToolsData.mk
        (setKey d.greetings gid ⟨m.title, m.summary, m.description,
          some (hash (contents.getD index ""))⟩)
        d.indexMap := by
    simp only [List.getD_eq_getElem?_getD] at hcontent ⊢
    simp [updateContentHash, hcontent, hmap, hgid, hrec]
  rw [hred]
  exact ⟨rfl, lookupKey_setKey_self _ _ _, fun g hg => lookupKey_setKey_ne _ _ _ _ hg⟩

/-- Store for the C9 counterexample and witness: one record "A" with
stored fingerprint 5, mapped at position 0. -/
def dataC9 : GreetingToolsData :=
  { greetings := [("A", ⟨some "t", none, none, some 5⟩)],
    indexMap := [(0, "A")] }

/-- Claim C9 counterexample: position 0 is mapped to the existing
record "A", but the entry's current text is the empty string, whose
fingerprint is `String.length "" = 0`; `updateContentHash` leaves the
stored fingerprint at 5 instead of updating it to 0 (the function
returns early on empty content). -/
theorem updateContentHash_empty_text_noop :
    lookupKey dataC9.indexMap 0 = some "A" ∧
    lookupKey dataC9.greetings "A" = some ⟨some "t", none, none, some 5⟩ ∧
    String.length ((([""] : List String)).getD 0 "") = 0 ∧
    updateContentHash String.length [""] 0 dataC9 = dataC9 ∧
    lookupKey (updateContentHash String.length [""] 0 dataC9).greetings "A" ≠
      some ⟨some "t", none, none, some 0⟩ := by
  refine ⟨rfl, rfl, rfl, by decide, by decide⟩

/-- Witness for the amended claim C9 at a concrete store. -/
theorem updateContentHash_frame_witness :
    (updateContentHash String.length ["abc"] 0 dataC9).indexMap = dataC9.indexMap ∧
    lookupKey (updateContentHash String.length ["abc"] 0 dataC9).greetings "A" =
      some ⟨some "t", none, none, some 3⟩ :=
  ⟨(updateContentHash_frame String.length ["abc"] 0 dataC9 "A" ⟨some "t", none, none, some 5⟩
      (by decide) rfl (by decide) rfl).1,
   (updateContentHash_frame String.length ["abc"] 0 dataC9 "A" ⟨some "t", none, none, some 5⟩
      (by decide) rfl (by decide) rfl).2.1⟩

/-- Claim C7: with the head slot occupied and the ordinary list
non-empty, one `swapMainWithFirstAlt` moves the whole position-0 state
object (content, identifier, title, description) into the head slot
and the whole head state object into position 0, leaving the rest of
the list unchanged; applying it twice returns both entries to their
original slots, with the synced content fields matching them. -/
theorem swapMainWithFirstAlt_roundtrip (st : PopupState) (m a : GreetingState)
    (rest : List GreetingState)
    (hmain : st.mainState = some m) (halts : st.altStates = a :: rest) :
    (swapMainWithFirstAlt st).mainState = some a ∧
    (swapMainWithFirstAlt st).altStates = m :: rest ∧
    (swapMainWithFirstAlt (swapMainWithFirstAlt st)).mainState = some m ∧
    (swapMainWithFirstAlt (swapMainWithFirstAlt st)).altStates = a :: rest ∧
    (swapMainWithFirstAlt (swapMainWithFirstAlt st)).firstMes = m.content ∧
    (swapMainWithFirstAlt (swapMainWithFirstAlt st)).altGreetings =
      (a :: rest).map (fun s => s.content) := by
  simp [swapMainWithFirstAlt, hmain, halts]

/-- Popup state for the C7 witness. -/
def stC7W : PopupState :=
  { mainState := some ⟨"m", "MC", "MT", "MD", 1⟩,
    altStates := [⟨"a", "AC", "AT", "AD", 2⟩, ⟨"b", "BC", "BT", "BD", 3⟩],
    firstMes := "MC",
    altGreetings := ["AC", "BC"] }

/-- Witness for claim C7 at a concrete popup state. -/
theorem swapMainWithFirstAlt_roundtrip_witness :
    (swapMainWithFirstAlt stC7W).mainState = some ⟨"a", "AC", "AT", "AD", 2⟩ ∧
    (swapMainWithFirstAlt stC7W).altStates =
      [⟨"m", "MC", "MT", "MD", 1⟩, ⟨"b", "BC", "BT", "BD", 3⟩] ∧
    (swapMainWithFirstAlt (swapMainWithFirstAlt stC7W)).mainState =
      some ⟨"m", "MC", "MT", "MD", 1⟩ ∧
    (swapMainWithFirstAlt (swapMainWithFirstAlt stC7W)).altStates =
      [⟨"a", "AC", "AT", "AD", 2⟩, ⟨"b", "BC", "BT", "BD", 3⟩] ∧
    (swapMainWithFirstAlt (swapMainWithFirstAlt stC7W)).firstMes = "MC" ∧
    (swapMainWithFirstAlt (swapMainWithFirstAlt stC7W)).altGreetings = ["AC", "BC"] :=
  swapMainWithFirstAlt_roundtrip stC7W ⟨"m", "MC", "MT", "MD", 1⟩
    ⟨"a", "AC", "AT", "AD", 2⟩ [⟨"b", "BC", "BT", "BD", 3⟩] rfl rfl

/-- Claim C8: a `handleMove` with delta in {-1, +1} whose target
position is out of range for the ordinary list leaves the whole popup
state unchanged (and, being a total function, raises no exception);
`swapMainWithFirstAlt` on an empty ordinary list likewise changes
nothing; the sole boundary exception is that moving the first ordinary
position up while a head state exists is performed as the head swap. -/
theorem handleMove_boundary_noops :
    (∀ (st : PopupState) (gid : String) (direction : Int) (i : Nat),
      (direction = -1 ∨ direction = 1) →
      findIdxById gid st.altStates = some i →
      ¬ (i = 0 ∧ direction = -1 ∧ st.mainState.isSome = true) →
      ((i : Int) + direction < 0 ∨ (st.altStates.length : Int) ≤ (i : Int) + direction) →
      handleMove gid direction st = st) ∧
    (∀ st : PopupState, st.altStates = [] → swapMainWithFirstAlt st = st) ∧
    (∀ (st : PopupState) (gid : String),
      findIdxById gid st.altStates = some 0 → st.mainState.isSome = true →
      handleMove gid (-1) st = swapMainWithFirstAlt st) := by
  refine ⟨?_, ?_, ?_⟩
  · intro st gid direction i _ hfind hnotswap hrange
    unfold handleMove
    simp only [hfind, if_neg hnotswap, if_pos hrange]
  · intro st h
    cases hm : st.mainState with
    | none => simp [swapMainWithFirstAlt, hm, h]
    | some m => simp [swapMainWithFirstAlt, hm, h]
  · intro st gid hfind hmain
    unfold handleMove
    simp [hfind, hmain]

/-- Popup state for the C8 witness: occupied head and two alternates. -/
def stC8W : PopupState :=
  { mainState := some ⟨"hm", "HC", "HT", "HD", 4⟩,
    altStates := [⟨"x", "XC", "XT", "XD", 5⟩, ⟨"y", "YC", "YT", "YD", 6⟩],
    firstMes := "HC",
    altGreetings := ["XC", "YC"] }

/-- Popup state with an empty ordinary list for the C8 witness. -/
def stC8E : PopupState :=
  { mainState := some ⟨"hm", "HC", "HT", "HD", 4⟩,
    altStates := [],
    firstMes := "HC",
    altGreetings := [] }

/-- Witness for claim C8 at concrete popup states: moving the last
entry down is a no-op, swapping with an empty list is a no-op, and
moving the first entry up performs the head swap. -/
theorem handleMove_boundary_noops_witness :
    handleMove "y" 1 stC8W = stC8W ∧
    swapMainWithFirstAlt stC8E = stC8E ∧
    handleMove "x" (-1) stC8W = swapMainWithFirstAlt stC8W :=
  ⟨handleMove_boundary_noops.1 stC8W "y" 1 1 (Or.inr rfl) (by decide) (by decide) (by decide),
   handleMove_boundary_noops.2.1 stC8E rfl,
   handleMove_boundary_noops.2.2 stC8W "x" (by decide) rfl⟩
